/-
  Verification of the psutil C layer vendored under pipenv/vendor/psutil.

  Each definition below is a shallow embedding of one C function from the
  source tree, translated statement by statement.  Kernel syscalls
  (sysctl, swapctl, OpenProcess, kill, NtQuerySystemInformation,
  NtQueryObject, GetExtendedTcpTable, ...) are modelled as oracles: the
  values they would deposit in the caller's buffers / errno are passed in
  as explicit parameters, so each embedded function is a pure function of
  the syscall answers it observes.  Python exception state
  (PyErr_SetFromErrno, NoSuchProcess(), AccessDenied(),
  PyErr_Format(PyExc_RuntimeError, ...), PyErr_NoMemory) is modelled by an
  explicit exception value.
-/
import Mathlib

namespace Psutil

/-- Python exception state set by the C helpers:
    `osError e` models `PyErr_SetFromErrno` / `PyErr_SetFromWindowsErr`
    with error code `e`; `noSuchProcess` models `NoSuchProcess()` (which
    sets `OSError(ESRCH)`); `accessDenied` models `AccessDenied()` (which
    sets `OSError(EACCES)`); `runtimeError` models
    `PyErr_Format(PyExc_RuntimeError, msg)`; `noMemory` models
    `PyErr_NoMemory()`; `unset` models an error return path on which the C
    code sets no exception at all. -/
inductive PyExc where
  | osError (errno : Int)
  | noSuchProcess
  | accessDenied
  | runtimeError (msg : String)
  | noMemory
  | unset
  deriving DecidableEq, Repr

/-- The stable four-way outcome taxonomy of the spec (§4.2).  `transient`
    never appears as the image of an exception: it is internal to retry
    loops. -/
inductive Outcome where
  | notFound
  | permissionDenied
  | transient
  | fatal
  deriving DecidableEq, Repr

/-- POSIX errno constants used by the embedded code. -/
def ESRCH : Int := 3
def EPERM : Int := 1
def EACCES : Int := 13
def ENOMEM : Int := 12

/-- Classification of a raised exception into the spec's taxonomy.
    `NoSuchProcess()` constructs `OSError(ESRCH)` and `AccessDenied()`
    constructs `OSError(EACCES)`, so a raw `osError` with one of those
    errno values classifies identically. -/
def excOutcome : PyExc → Outcome
  | .osError e =>
      if e = ESRCH then .notFound
      else if e = EPERM ∨ e = EACCES then .permissionDenied
      else .fatal
  | .noSuchProcess => .notFound
  | .accessDenied => .permissionDenied
  | .runtimeError _ => .fatal
  | .noMemory => .fatal
  | .unset => .fatal

/-! ## FreeBSD socket correlator (arch/bsd/freebsd_socks.c) -/

namespace FreeBSD

/-- `#define HASHSIZE 1009` in freebsd_socks.c. -/
def HASHSIZE : Nat := 1009

/-- One entry of the `kern.file` table (`struct xfile`): the fields the
    correlator reads.  `xf_data` is the kernel file/socket object pointer
    (`none` models `NULL`), `xf_pid` the owning pid, `xf_size` the
    entry's self-declared struct size. -/
structure XFile where
  xf_data : Option Nat
  xf_pid : Int
  xf_size : Nat
  deriving DecidableEq, Repr

/-- `psutil_get_pid_from_sock`: walk the xfiles table; skip entries with
    a NULL `xf_data`; return the pid of the first entry whose kernel
    pointer hashes (mod HASHSIZE) to `sock_hash`; `-1` when none does. -/
def psutil_get_pid_from_sock (xfiles : List XFile) (sock_hash : Nat) : Int :=
  match xfiles with
  | [] => -1
  | xf :: rest =>
      match xf.xf_data with
      | none => psutil_get_pid_from_sock rest sock_hash
      | some d =>
          if d % HASHSIZE = sock_hash then xf.xf_pid
          else psutil_get_pid_from_sock rest sock_hash

/-- Outcome of the `kern.file` sysctl growth loop in
    `psutil_populate_xfiles`: either some iteration failed hard
    (`sysctlbyname` with `errno != ENOMEM`, modelled with that errno) or
    the realloc failed (`noMemory`), or the fetch succeeded leaving `len`
    bytes whose first entry declares size `firstSize` and which decode to
    `files`. -/
inductive KernFileFetch where
  | fail (exc : PyExc)
  | ok (len : Nat) (firstSize : Nat) (files : List XFile)

/-- `psutil_populate_xfiles` after the growth loop: on fetch failure the
    exception is propagated; otherwise, if the table is nonempty and the
    first entry's `xf_size` differs from `sizeof(struct xfile)`
    (`stride`), fail with RuntimeError "struct xfile size mismatch"; else
    set `psutil_nxfiles = len / sizeof(struct xfile)` and expose that many
    entries. -/
def psutil_populate_xfiles (stride : Nat) : KernFileFetch → Except PyExc (List XFile)
  | .fail exc => .error exc
  | .ok len firstSize files =>
      if 0 < len ∧ firstSize ≠ stride then
        .error (.runtimeError "struct xfile size mismatch")
      else
        .ok (files.take (len / stride))

/-- One TCP/UDP pcb entry of a `net.inet.*.pcblist` table as walked by
    `psutil_gather_inet`: `xt_len` is the element's self-declared length
    (`xt_len` / `xi_len`), `so_ptr` is the kernel socket pointer
    `so->xso_so`. -/
structure InetPcb where
  xt_len : Nat
  so_ptr : Nat
  deriving DecidableEq, Repr

/-- The per-element walk of `psutil_gather_inet` (freebsd_socks.c lines
    260-332): for each element, a self-declared length different from the
    expected struct size aborts with RuntimeError; otherwise the socket
    pointer is hashed and looked up in the xfiles table, entries whose
    lookup yields a negative pid are skipped (`continue`), and the rest
    are emitted with the resolved pid. -/
def psutil_gather_inet (stride : Nat) (xfiles : List XFile) :
    List InetPcb → Except PyExc (List (Int × InetPcb))
  | [] => .ok []
  | e :: rest =>
      if e.xt_len ≠ stride then
        .error (.runtimeError "struct xtcpcb size mismatch")
      else
        let pid := psutil_get_pid_from_sock xfiles (e.so_ptr % HASHSIZE)
        if pid < 0 then
          psutil_gather_inet stride xfiles rest
        else
          (psutil_gather_inet stride xfiles rest).map (fun l => (pid, e) :: l)

/-- One unix-domain pcb entry of a `net.local.*.pcblist` table as walked
    by `psutil_gather_unix`. -/
structure UnixPcb where
  xu_len : Nat
  so_ptr : Nat
  deriving DecidableEq, Repr

/-- The per-element walk of `psutil_gather_unix` (freebsd_socks.c lines
    404-430): a self-declared length mismatch jumps to the error label
    without setting an exception (`goto error` with no `PyErr_*` call);
    unmatched sockets (negative pid) are skipped; matched ones are
    emitted with the resolved pid. -/
def psutil_gather_unix (stride : Nat) (xfiles : List XFile) :
    List UnixPcb → Except PyExc (List (Int × UnixPcb))
  | [] => .ok []
  | e :: rest =>
      if e.xu_len ≠ stride then
        .error .unset
      else
        let pid := psutil_get_pid_from_sock xfiles (e.so_ptr % HASHSIZE)
        if pid < 0 then
          psutil_gather_unix stride xfiles rest
        else
          (psutil_gather_unix stride xfiles rest).map (fun l => (pid, e) :: l)

/-- A system-wide connection record produced by the FreeBSD
    `psutil_net_connections`: inet records from the TCP and UDP gathers
    followed by unix records from the stream and dgram gathers. -/
structure NetConnResult where
  inet : List (Int × InetPcb)
  unix : List (Int × UnixPcb)
  deriving DecidableEq, Repr

/-- `psutil_net_connections` (freebsd_socks.c lines 444-469): populate
    the xfiles table, then gather TCP, UDP, unix-stream and unix-dgram
    connections in order; the first failing step aborts the whole call
    with its exception. -/
def psutil_net_connections (xfStride inetStride unixStride : Nat)
    (fetch : KernFileFetch)
    (tcpTable udpTable : List InetPcb)
    (streamTable dgramTable : List UnixPcb) :
    Except PyExc NetConnResult := do
  let xfiles ← psutil_populate_xfiles xfStride fetch
  let tcp ← psutil_gather_inet inetStride xfiles tcpTable
  let udp ← psutil_gather_inet inetStride xfiles udpTable
  let stream ← psutil_gather_unix unixStride xfiles streamTable
  let dgram ← psutil_gather_unix unixStride xfiles dgramTable
  return ⟨tcp ++ udp, stream ++ dgram⟩

/-- Spec-side description of the indirect hash join (§4.3 of the spec):
    the pid of the first open-file entry with a known (non-null) kernel
    object pointer whose hash equals the socket's, or `-1` when no
    entry's hash matches.  Used to compare the code's
    `psutil_get_pid_from_sock` against the spec's words. -/
def specFirstHashMatch (xfiles : List XFile) (sock_hash : Nat) : Int :=
  match xfiles.find? (fun xf =>
      match xf.xf_data with
      | none => false
      | some d => d % HASHSIZE = sock_hash) with
  | some xf => xf.xf_pid
  | none => -1

end FreeBSD

/-! ## NetBSD socket correlator (arch/bsd/netbsd_socks.c) -/

namespace NetBSD

/-- The fields of one `kinfo_file` entry read by the NetBSD
    `psutil_net_connections` join: owning pid, file descriptor, and the
    kernel file-data pointer `ki_fdata`. -/
structure Kif where
  ki_pid : Int
  ki_fd : Int
  ki_fdata : Nat
  deriving DecidableEq, Repr

/-- The fields of one `kinfo_pcb` entry read by the join: the kernel
    socket address `ki_sockaddr` plus the family/type/state fields copied
    into the emitted record. -/
structure Kpcb where
  ki_sockaddr : Nat
  ki_family : Int
  ki_type : Int
  ki_tstate : Int
  deriving DecidableEq, Repr

/-- One record emitted by the NetBSD `psutil_net_connections`: the file
    descriptor and pid come from the `kinfo_file` entry, the rest from
    the matched `kinfo_pcb` entry. -/
structure ConnRec where
  fd : Int
  pcb : Kpcb
  pid : Int
  deriving DecidableEq, Repr

/-- The double loop of the NetBSD `psutil_net_connections`
    (netbsd_socks.c lines 331-432): for every `kinfo_file` entry (skipping
    those whose pid differs from a requested pid other than `-1`), emit
    one record per `kinfo_pcb` entry whose kernel socket address is
    exactly equal to the file entry's `ki_fdata` pointer
    (`if (k->kif->ki_fdata != kp->kpcb->ki_sockaddr) continue;`). -/
def psutil_net_connections (pid : Int) (files : List Kif) (socks : List Kpcb) :
    List ConnRec :=
  match files with
  | [] => []
  | k :: rest =>
      if pid ≠ -1 ∧ k.ki_pid ≠ pid then
        psutil_net_connections pid rest socks
      else
        (socks.filter (fun kp => k.ki_fdata = kp.ki_sockaddr)).map
            (fun kp => ⟨k.ki_fd, kp, k.ki_pid⟩)
          ++ psutil_net_connections pid rest socks

end NetBSD

/-! ## Liveness probe and error disambiguation (_psutil_common.c) -/

namespace Posix

/-- The platforms distinguished by `#ifdef` in `psutil_pid_exists`'s
    pid-0 branch. -/
inductive Platform where
  | linux
  | freebsd
  | osx
  | other
  deriving DecidableEq, Repr

/-- Result of the `kill(pid, 0)` probe syscall: success, or failure with
    the given errno. -/
inductive KillResult where
  | ok
  | err (errno : Int)
  deriving DecidableEq, Repr

/-- `psutil_pid_exists` (_psutil_common.c lines 52-100).  Returns
    `1` = exists, `0` = does not exist, `-1` = error.  Negative pids are
    answered `0` before any syscall; pid 0 is answered by a
    platform-dependent constant (0 on Linux/FreeBSD, 1 elsewhere); for
    other pids `kill(pid, 0)` is consulted: success means exists, `ESRCH`
    means gone, `EPERM` means exists (there is a process to deny access
    to), any other errno is an error. -/
def psutil_pid_exists (platform : Platform) (kill : Int → KillResult)
    (pid : Int) : Int :=
  if pid < 0 then 0
  else if pid = 0 then
    (if platform = .linux ∨ platform = .freebsd then 0 else 1)
  else
    match kill pid with
    | .ok => 1
    | .err e =>
        if e = ESRCH then 0
        else if e = EPERM then 1
        else -1

/-- `psutil_raise_for_pid` (_psutil_common.c lines 113-125): if `errno`
    is set, surface it as a raw OSError without probing; otherwise probe
    `psutil_pid_exists` — a dead process becomes `NoSuchProcess()`, and
    any other probe answer becomes `RuntimeError(msg)`. -/
def psutil_raise_for_pid (platform : Platform) (kill : Int → KillResult)
    (errno : Int) (pid : Int) (msg : String) : PyExc :=
  if errno ≠ 0 then .osError errno
  else if psutil_pid_exists platform kill pid = 0 then .noSuchProcess
  else .runtimeError msg

end Posix

/-! ## Windows liveness probe and handle helpers
    (arch/windows/process_info.c) -/

namespace Windows

def ERROR_INVALID_PARAMETER : Nat := 87
def ERROR_ACCESS_DENIED : Nat := 5
def STILL_ACTIVE : Nat := 259
def NO_ERROR : Nat := 0
def ERROR_INSUFFICIENT_BUFFER : Nat := 122
def ERROR_NOT_ENOUGH_MEMORY : Nat := 8

/-- Result of `OpenProcess`: a handle, or `NULL` with the given
    `GetLastError()` code. -/
inductive OpenResult where
  | handle
  | fail (lastError : Nat)
  deriving DecidableEq, Repr

/-- Result of `GetExitCodeProcess`: `ok code` when the call succeeds and
    stores `code`, `err lastError` when it fails with that
    `GetLastError()` code. -/
inductive ExitCodeResult where
  | ok (code : Nat)
  | err (lastError : Nat)
  deriving DecidableEq, Repr

/-- `psutil_pid_is_running` (arch/windows/process_info.c lines 123-169).
    Returns `1` = running, `0` = not, `-1` = error.  Pid 0 (System Idle
    Process) is answered `1` before any syscall; `pid` is a `DWORD`, so
    the source's `pid < 0` test is vacuous and the embedding takes a
    `Nat`.  `OpenProcess` failing with `ERROR_INVALID_PARAMETER` means no
    such process, with `ERROR_ACCESS_DENIED` means there is a process to
    deny access to; on a handle, the exit code decides
    (`STILL_ACTIVE` = running), with an `ERROR_ACCESS_DENIED` failure of
    `GetExitCodeProcess` again meaning running. -/
def psutil_pid_is_running (openProcess : Nat → OpenResult)
    (getExitCode : Nat → ExitCodeResult) (pid : Nat) : Int :=
  if pid = 0 then 1
  else
    match openProcess pid with
    | .fail e =>
        if e = ERROR_INVALID_PARAMETER then 0
        else if e = ERROR_ACCESS_DENIED then 1
        else -1
    | .handle =>
        match getExitCode pid with
        | .ok code => if code = STILL_ACTIVE then 1 else 0
        | .err e => if e = ERROR_ACCESS_DENIED then 1 else -1

/-- `psutil_handle_from_pid_waccess` (arch/windows/process_info.c lines
    28-55): pid 0 is answered `AccessDenied()` up front; an `OpenProcess`
    failure with `ERROR_INVALID_PARAMETER` becomes `NoSuchProcess()` and
    any other failure a raw Windows error; on success the exit code is
    read into a variable initialised to 0 (the call's own failure is
    ignored) and an exit code of 0 means the process is gone
    (`NoSuchProcess()`). -/
def psutil_handle_from_pid_waccess (openProcess : Nat → OpenResult)
    (exitCodeVar : Nat → Nat) (pid : Nat) : Except PyExc Unit :=
  if pid = 0 then .error .accessDenied
  else
    match openProcess pid with
    | .fail e =>
        if e = ERROR_INVALID_PARAMETER then .error .noSuchProcess
        else .error (.osError (Int.ofNat e))
    | .handle =>
        if exitCodeVar pid = 0 then .error .noSuchProcess
        else .ok ()

end Windows

/-! ## macOS process helpers (arch/osx/process_info.c, _psutil_osx.c) -/

namespace OSX

/-- Answer of the 4-element `KERN_PROC_PID` sysctl in
    `psutil_get_kinfo_proc`: failure with an errno, or success leaving
    `len` bytes in the destination. -/
inductive SysctlPidResult where
  | err (errno : Int)
  | ok (len : Nat)
  deriving DecidableEq, Repr

/-- `psutil_get_kinfo_proc` (arch/osx/process_info.c lines 331-356): a
    failing sysctl surfaces its errno as an OSError; a sysctl that
    succeeds but returns length 0 means the process has gone away and
    becomes `NoSuchProcess()`. -/
def psutil_get_kinfo_proc (res : SysctlPidResult) : Except PyExc Unit :=
  match res with
  | .err e => .error (.osError e)
  | .ok len => if len = 0 then .error .noSuchProcess else .ok ()

/-- Answer of one size-query sysctl (`sysctl(mib3, 3, NULL, &size, ...)`)
    in `psutil_get_proc_list`. -/
inductive SizeQueryResult where
  | err (errno : Int)
  | ok (size : Nat)
  deriving DecidableEq, Repr

/-- Answer of one data-fetch sysctl (`sysctl(mib3, 3, ptr, &size, ...)`)
    in `psutil_get_proc_list`. -/
inductive FetchResult where
  | err (errno : Int)
  | ok (returnedSize : Nat)
  deriving DecidableEq, Repr

/-- The syscall environment of one `psutil_get_proc_list` invocation:
    the answers of the size query, the data fetch, and whether `malloc`
    succeeds, each indexed by the attempt number. -/
structure ProcListEnv where
  sizeQuery : Nat → SizeQueryResult
  fetch : Nat → FetchResult
  mallocOk : Nat → Bool

/-- `sizeof(kinfo_proc)` stands in for the element stride when the
    successful size is converted to a count; its exact value is a
    platform constant and irrelevant to the retry logic. -/
def kinfoProcStride : Nat := 648

/-- The `while (lim-- > 0)` loop of `psutil_get_proc_list`
    (arch/osx/process_info.c lines 60-90), recursing on the remaining
    limit with the current attempt index: each attempt re-queries the
    size (a failure returns its errno), allocates (a failure returns
    `ENOMEM`), and fetches — a fetch failure other than `ENOMEM` returns
    that errno, an `ENOMEM` failure retries, success returns 0 together
    with `size / sizeof(kinfo_proc)`.  When the limit runs out the
    function returns `ENOMEM`.  The result also carries the number of
    attempts performed. -/
def procListLoop (env : ProcListEnv) (attempt : Nat) :
    Nat → Int × Nat × Nat
  | 0 => (ENOMEM, 0, attempt)
  | lim + 1 =>
      match env.sizeQuery attempt with
      | .err e => (e, 0, attempt + 1)
      | .ok _ =>
          if env.mallocOk attempt then
            match env.fetch attempt with
            | .ok rsize => (0, rsize / kinfoProcStride, attempt + 1)
            | .err e =>
                if e ≠ ENOMEM then (e, 0, attempt + 1)
                else procListLoop env (attempt + 1) lim
          else (ENOMEM, 0, attempt + 1)

/-- `psutil_get_proc_list`: run the retry loop with the configured limit
    `int lim = 8`.  Returns `(errno-or-0, procCount, attemptsUsed)`. -/
def psutil_get_proc_list (env : ProcListEnv) : Int × Nat × Nat :=
  procListLoop env 0 8

/-- The `task_for_pid` error branch of `psutil_proc_memory_maps`
    (_psutil_osx.c lines 347-354): when `task_for_pid` does not return
    `KERN_SUCCESS`, probe `psutil_pid_exists` — a dead process becomes
    `NoSuchProcess()`, anything else `AccessDenied()`. -/
def task_for_pid_error_branch (platform : Posix.Platform)
    (kill : Int → Posix.KillResult) (pid : Int) : PyExc :=
  if Posix.psutil_pid_exists platform kill pid = 0 then .noSuchProcess
  else .accessDenied

end OSX

/-! ## Windows extended TCP/UDP tables (_psutil_windows.c) -/

namespace WinTables

open Psutil.Windows

/-- The syscall environment of one `__GetExtendedTcpTable` /
    `__GetExtendedUdpTable` invocation: the error code returned by the
    `call` at each attempt (attempt 0 is the initial size probe with a
    `NULL` destination) and whether `malloc` succeeds at each retry. -/
structure ExtTableEnv where
  call : Nat → Nat
  mallocOk : Nat → Bool

/-- The `while (error == ERROR_INSUFFICIENT_BUFFER)` loop of
    `__GetExtendedTcpTable` (_psutil_windows.c lines 1460-1473), entered
    with `error = ERROR_INSUFFICIENT_BUFFER`: a failing `malloc` sets
    `error = ERROR_NOT_ENOUGH_MEMORY` and `continue`s (so the loop
    condition fails and the loop exits with no data); otherwise the call
    is reissued — any error other than `NO_ERROR` frees the buffer.  The
    result is `(error, buffer-still-held)`; `none` means the loop is
    still running after `fuel` iterations. -/
def extTcpLoop (env : ExtTableEnv) (i : Nat) : Nat → Option (Nat × Bool)
  | 0 => none
  | fuel + 1 =>
      if env.mallocOk i then
        let e := env.call i
        if e = ERROR_INSUFFICIENT_BUFFER then extTcpLoop env (i + 1) fuel
        else some (e, e = NO_ERROR)
      else some (ERROR_NOT_ENOUGH_MEMORY, false)

/-- `__GetExtendedTcpTable` (_psutil_windows.c lines 1443-1476): issue
    the size probe; while it keeps reporting `ERROR_INSUFFICIENT_BUFFER`,
    allocate and retry with no bound on the number of iterations; return
    the final error code and whether `*data` is non-NULL. -/
def GetExtendedTcpTable (env : ExtTableEnv) (fuel : Nat) :
    Option (Nat × Bool) :=
  let e0 := env.call 0
  if e0 = ERROR_INSUFFICIENT_BUFFER then extTcpLoop env 1 fuel
  else some (e0, false)

/-- The retry loop of `__GetExtendedUdpTable` (_psutil_windows.c lines
    1501-1514), identical in structure to the TCP one. -/
def extUdpLoop (env : ExtTableEnv) (i : Nat) : Nat → Option (Nat × Bool)
  | 0 => none
  | fuel + 1 =>
      if env.mallocOk i then
        let e := env.call i
        if e = ERROR_INSUFFICIENT_BUFFER then extUdpLoop env (i + 1) fuel
        else some (e, e = NO_ERROR)
      else some (ERROR_NOT_ENOUGH_MEMORY, false)

/-- `__GetExtendedUdpTable` (_psutil_windows.c lines 1484-1517). -/
def GetExtendedUdpTable (env : ExtTableEnv) (fuel : Nat) :
    Option (Nat × Bool) :=
  let e0 := env.call 0
  if e0 = ERROR_INSUFFICIENT_BUFFER then extUdpLoop env 1 fuel
  else some (e0, false)

end WinTables

/-! ## Windows open-file enumeration (arch/windows/process_handles.c) -/

namespace WinHandles

open Psutil.Windows

def WAIT_OBJECT_0 : Nat := 0
def WAIT_TIMEOUT : Nat := 258
/-- `STATUS_INFO_LENGTH_MISMATCH` (0xC0000004) as a signed NTSTATUS. -/
def STATUS_INFO_LENGTH_MISMATCH : Int := -1073741820
/-- `NT_SUCCESS(status)`: a non-negative NTSTATUS. -/
def NT_SUCCESS (status : Int) : Bool := 0 ≤ status

/-- Behaviour of one `NtQueryObject` call issued by the worker thread:
    either the syscall hangs (it never completes, so the watchdog wait
    elapses), or it completes with an NTSTATUS, the required length it
    stores in `g_dwLength`, and the name it wrote. -/
inductive NtqoRes where
  | hang
  | done (status : Int) (newLength : Nat) (name : String)
  deriving DecidableEq, Repr

/-- `psutil_NtQueryObject` (arch/windows/process_handles.c lines
    274-306), the watchdog dispatcher, as a function of the worker-thread
    state and the behaviour of the delegated syscall: if no worker thread
    exists and `CreateThread` fails, `GetLastError()` is returned; a
    hanging syscall makes `WaitForSingleObject(g_hEvtFinish,
    NTQO_TIMEOUT)` elapse, upon which the worker is suspended, forcibly
    terminated and its handle closed (`g_hThread = NULL`), and
    `WAIT_TIMEOUT` is returned; a completing syscall signals the finish
    event and `WAIT_OBJECT_0` is returned with the worker kept alive.
    The result is `(dwWait, worker-thread-still-alive)`. -/
def psutil_NtQueryObject (threadAlive createOk : Bool) (lastErr : Nat)
    (b : NtqoRes) : Nat × Bool :=
  if ¬ threadAlive ∧ ¬ createOk then (lastErr, false)
  else
    match b with
    | .hang => (WAIT_TIMEOUT, false)
    | .done _ _ _ => (WAIT_OBJECT_0, true)

/-- One handle-table entry examined by
    `psutil_get_open_files_ntqueryobject`, with the behaviour of its
    syscalls: the owning pid, whether `DuplicateHandle` succeeds, whether
    `HeapAlloc` succeeds at each name-query attempt, and the behaviour of
    `NtQueryObject` at each attempt. -/
structure HandleEntry where
  uniqueProcessId : Int
  dupOk : Bool
  allocOk : Nat → Bool
  ntqo : Nat → NtqoRes

/-- `(MAX_PATH+1) * sizeof(WCHAR)`, the initial `g_dwLength` guess. -/
def initialNameLength : Nat := 522

/-- The inner `do { ... } while (g_status == STATUS_INFO_LENGTH_MISMATCH)`
    name-query loop for one handle (process_handles.c lines 163-231),
    followed by the post-loop status and length checks: a zero required
    length skips the handle (WinXP edge case), an allocation failure
    skips it, a wait other than `WAIT_OBJECT_0` (the hanging-syscall
    case) skips it, a `STATUS_INFO_LENGTH_MISMATCH` status retries with
    the corrected length, a non-success status skips it, and a success
    appends the name when it is nonempty.  `some (some s)` appends `s`,
    `some none` skips the handle, `none` means the loop is still running
    after `fuel` iterations. -/
def queryNameLoop (h : HandleEntry) (dwLength : Nat) (k : Nat) :
    Nat → Option (Option String)
  | 0 => none
  | fuel + 1 =>
      if dwLength = 0 then some none
      else if ¬ h.allocOk k then some none
      else
        match h.ntqo k with
        | .hang => some none
        | .done status newLength name =>
            if status = STATUS_INFO_LENGTH_MISMATCH then
              queryNameLoop h newLength (k + 1) fuel
            else if NT_SUCCESS status then
              if name.length > 0 then some (some name) else some none
            else some none

/-- The per-handle loop of `psutil_get_open_files_ntqueryobject`
    (process_handles.c lines 136-246): entries of other processes and
    entries whose `DuplicateHandle` fails are skipped; for the rest the
    name query runs with the initial length guess, a skipped handle
    contributes nothing, and an appended name is prepended to the results
    of the remaining entries.  `none` propagates fuel exhaustion of the
    inner loop. -/
def enumHandles (dwPid : Int) (fuel : Nat) :
    List HandleEntry → Option (List String)
  | [] => some []
  | h :: rest =>
      if h.uniqueProcessId ≠ dwPid then enumHandles dwPid fuel rest
      else if ¬ h.dupOk then enumHandles dwPid fuel rest
      else
        match queryNameLoop h initialNameLength 0 fuel with
        | none => none
        | some none => enumHandles dwPid fuel rest
        | some (some name) => (enumHandles dwPid fuel rest).map (name :: ·)

/-- The `NtQuerySystemInformation` growth loop of
    `psutil_get_open_files_ntqueryobject` (process_handles.c lines
    105-134): double the buffer size and retry while the call keeps
    returning `STATUS_INFO_LENGTH_MISMATCH`, with no retry counter; a
    failing `HeapAlloc` aborts with `PyErr_NoMemory`; a non-mismatch
    status exits the loop (a non-success status then aborts with a
    Windows error).  `status` is indexed by the attempt number; `none`
    means the loop is still running after `fuel` iterations. -/
def handleInfoLoop (status : Nat → Int) (allocOk : Nat → Bool) (i : Nat) :
    Nat → Option (Except PyExc Unit)
  | 0 => none
  | fuel + 1 =>
      if ¬ allocOk i then some (.error .noMemory)
      else
        let s := status i
        if s = STATUS_INFO_LENGTH_MISMATCH then
          handleInfoLoop status allocOk (i + 1) fuel
        else if NT_SUCCESS s then some (.ok ())
        else some (.error (.osError s))

end WinHandles

/-! ## BSD swap memory (arch/bsd/netbsd.c, arch/bsd/openbsd.c) -/

namespace BsdSwap

/-- One `struct swapent` as read by `psutil_swap_mem`: whether
    `se_flags & SWF_ENABLE` is set, the device's block count `se_nblks`
    and the blocks in use `se_inuse`. -/
structure Swapent where
  enabled : Bool
  se_nblks : Nat
  se_inuse : Nat
  deriving DecidableEq, Repr

/-- `DEV_BSIZE`. -/
def DEV_BSIZE : Nat := 512

/-- The NetBSD uvm counters read for swap-in/swap-out. -/
structure Uvm where
  pgswapin : Nat
  pgswapout : Nat
  deriving DecidableEq, Repr

/-- The accumulation loop shared by both swap_mem implementations:
    total up `se_nblks` and `se_nblks - se_inuse` over the enabled
    devices. -/
def swapTotals (devs : List Swapent) : Nat × Nat :=
  match devs with
  | [] => (0, 0)
  | d :: rest =>
      let (t, f) := swapTotals rest
      if d.enabled then (t + d.se_nblks, f + (d.se_nblks - d.se_inuse)) else (t, f)

/-- NetBSD `psutil_swap_mem` (arch/bsd/netbsd.c lines 446-500):
    `swapctl(SWAP_NSWAP, 0, 0)` returning 0 means there is no swap
    partition and a zeroed five-tuple is returned; otherwise the
    `SWAP_STATS` call and the uvm sysctl may each fail with their errno,
    and on success the totals are scaled by `DEV_BSIZE` and the
    in/out counters by the page size. -/
def netbsd_swap_mem (nswap : Int)
    (stats : Except Int (List Swapent)) (uvm : Except Int Uvm)
    (pagesize : Nat) : Except PyExc (Nat × Nat × Nat × Nat × Nat) :=
  if nswap = 0 then .ok (0, 0, 0, 0, 0)
  else
    match stats with
    | .error e => .error (.osError e)
    | .ok devs =>
        let (t, f) := swapTotals devs
        match uvm with
        | .error e => .error (.osError e)
        | .ok u =>
            .ok (t * DEV_BSIZE, (t - f) * DEV_BSIZE, f * DEV_BSIZE,
                 u.pgswapin * pagesize, u.pgswapout * pagesize)

/-- OpenBSD `psutil_swap_mem` (arch/bsd/openbsd.c lines 348-391):
    `swapctl(SWAP_NSWAP, 0, 0)` returning 0 is treated as an error —
    `PyErr_SetFromErrno` is called even though that call succeeded, so
    the OSError carries whatever stale value `errno` happens to hold;
    otherwise the `SWAP_STATS` call may fail with its errno, and on
    success the totals are scaled by `DEV_BSIZE` with zero swap-in/out. -/
def openbsd_swap_mem (staleErrno : Int) (nswap : Int)
    (stats : Except Int (List Swapent)) :
    Except PyExc (Nat × Nat × Nat × Nat × Nat) :=
  if nswap = 0 then .error (.osError staleErrno)
  else
    match stats with
    | .error e => .error (.osError e)
    | .ok devs =>
        let (t, f) := swapTotals devs
        .ok (t * DEV_BSIZE, (t - f) * DEV_BSIZE, f * DEV_BSIZE, 0, 0)

end BsdSwap

/-! ## Concrete syscall environments used in the theorems below -/

/-- A Windows table selector whose fetch reports buffer-too-small on
    every attempt, with allocation always succeeding. -/
def alwaysTooSmallEnv : WinTables.ExtTableEnv :=
  ⟨fun _ => Windows.ERROR_INSUFFICIENT_BUFFER, fun _ => true⟩

/-- A macOS process-list environment whose size query always succeeds,
    whose allocation always succeeds, and whose fetch reports `ENOMEM`
    (buffer too small) on every attempt. -/
def alwaysENOMEMEnv : OSX.ProcListEnv :=
  ⟨fun _ => .ok 4096, fun _ => .err ENOMEM, fun _ => true⟩

/-- A Windows table selector whose size probe reports buffer-too-small
    once and whose real fetch then succeeds. -/
def probeThenOkEnv : WinTables.ExtTableEnv :=
  ⟨fun i => if i = 0 then Windows.ERROR_INSUFFICIENT_BUFFER else Windows.NO_ERROR,
   fun _ => true⟩

/-- A handle-table entry owned by pid 1 whose `NtQueryObject` hangs on
    every attempt. -/
def hangingHandle : WinHandles.HandleEntry :=
  ⟨1, true, fun _ => true, fun _ => .hang⟩

/-- A handle-table entry owned by pid 1 whose `NtQueryObject` immediately
    succeeds with the name "file". -/
def promptHandle : WinHandles.HandleEntry :=
  ⟨1, true, fun _ => true, fun _ => .done 0 16 "file"⟩

/-! # Theorems

Helper lemmas first, then one theorem (plus witness or counterexample)
per claim. -/

/-- Unfolding equation for the hash lookup on a nonempty table. -/
theorem get_pid_from_sock_cons (xf : FreeBSD.XFile) (rest : List FreeBSD.XFile)
    (h : Nat) :
    FreeBSD.psutil_get_pid_from_sock (xf :: rest) h =
      (match xf.xf_data with
       | none => FreeBSD.psutil_get_pid_from_sock rest h
       | some d =>
           if d % FreeBSD.HASHSIZE = h then xf.xf_pid
           else FreeBSD.psutil_get_pid_from_sock rest h) := rfl

/-- The FreeBSD hash lookup agrees with the spec's first-match
    description of the indirect hash join. -/
theorem get_pid_from_sock_eq_spec (xfiles : List FreeBSD.XFile) (h : Nat) :
    FreeBSD.psutil_get_pid_from_sock xfiles h =
      FreeBSD.specFirstHashMatch xfiles h := by
  induction xfiles with
  | nil => rfl
  | cons xf rest ih =>
      rw [get_pid_from_sock_cons]
      cases hd : xf.xf_data with
      | none =>
          simp only []
          rw [ih]
          unfold FreeBSD.specFirstHashMatch
          simp [List.find?_cons, hd]
      | some d =>
          simp only []
          by_cases hh : d % FreeBSD.HASHSIZE = h
          · rw [if_pos hh]
            unfold FreeBSD.specFirstHashMatch
            simp [List.find?_cons, hd, hh]
          · rw [if_neg hh, ih]
            unfold FreeBSD.specFirstHashMatch
            simp [List.find?_cons, hd, hh]

/-- A non-sentinel hash-lookup answer is the pid of some table entry
    whose (non-null) kernel pointer hashes to the requested bucket. -/
theorem get_pid_from_sock_mem (xfiles : List FreeBSD.XFile) (h : Nat)
    (hne : FreeBSD.psutil_get_pid_from_sock xfiles h ≠ -1) :
    ∃ xf ∈ xfiles, ∃ d, xf.xf_data = some d ∧ d % FreeBSD.HASHSIZE = h ∧
      FreeBSD.psutil_get_pid_from_sock xfiles h = xf.xf_pid := by
  induction xfiles with
  | nil => exact absurd rfl hne
  | cons xf rest ih =>
      rw [get_pid_from_sock_cons] at hne ⊢
      cases hd : xf.xf_data with
      | none =>
          simp only [hd] at hne ⊢
          obtain ⟨y, hy, d, hdata, hhash, hval⟩ := ih hne
          exact ⟨y, List.mem_cons_of_mem _ hy, d, hdata, hhash, hval⟩
      | some d =>
          simp only [hd] at hne ⊢
          by_cases hh : d % FreeBSD.HASHSIZE = h
          · rw [if_pos hh] at hne ⊢
            exact ⟨xf, List.mem_cons_self _ _, d, hd, hh, rfl⟩
          · rw [if_neg hh] at hne ⊢
            obtain ⟨y, hy, d', hdata, hhash, hval⟩ := ih hne
            exact ⟨y, List.mem_cons_of_mem _ hy, d', hdata, hhash, hval⟩

/-- Every record emitted by the NetBSD correlator stems from a
    file-table entry and a pcb entry whose kernel pointers are exactly
    equal. -/
theorem netbsd_conn_mem (pid : Int) (files : List NetBSD.Kif)
    (socks : List NetBSD.Kpcb) (r : NetBSD.ConnRec)
    (hr : r ∈ NetBSD.psutil_net_connections pid files socks) :
    ∃ k ∈ files, ∃ kp ∈ socks, k.ki_fdata = kp.ki_sockaddr ∧
      r = ⟨k.ki_fd, kp, k.ki_pid⟩ ∧ (pid = -1 ∨ k.ki_pid = pid) := by
  induction files with
  | nil => simp [NetBSD.psutil_net_connections] at hr
  | cons k rest ih =>
      unfold NetBSD.psutil_net_connections at hr
      by_cases hp : pid ≠ -1 ∧ k.ki_pid ≠ pid
      · rw [if_pos hp] at hr
        obtain ⟨y, hy, z, hz, h1, h2, h3⟩ := ih hr
        exact ⟨y, List.mem_cons_of_mem _ hy, z, hz, h1, h2, h3⟩
      · rw [if_neg hp] at hr
        rcases List.mem_append.mp hr with hin | hin
        · obtain ⟨kp, hkp, hmap⟩ := List.mem_map.mp hin
          obtain ⟨hfil, heq⟩ := List.mem_filter.mp hkp
          refine ⟨k, List.mem_cons_self _ _, kp, hfil, ?_, hmap.symm, ?_⟩
          · exact of_decide_eq_true heq
          · rcases not_and_or.mp hp with h | h
            · exact Or.inl (not_not.mp h)
            · exact Or.inr (not_not.mp h)
        · obtain ⟨y, hy, z, hz, h1, h2, h3⟩ := ih hin
          exact ⟨y, List.mem_cons_of_mem _ hy, z, hz, h1, h2, h3⟩

/-- Unfolding equation for `psutil_populate_xfiles` on a successful
    fetch. -/
theorem populate_xfiles_ok_eq (stride len firstSize : Nat)
    (files : List FreeBSD.XFile) :
    FreeBSD.psutil_populate_xfiles stride (.ok len firstSize files) =
      (if 0 < len ∧ firstSize ≠ stride then
        .error (.runtimeError "struct xfile size mismatch")
      else .ok (files.take (len / stride))) := rfl

/-- Unfolding equation for `psutil_gather_inet` on a nonempty table. -/
theorem gather_inet_cons_eq (stride : Nat) (xfiles : List FreeBSD.XFile)
    (e : FreeBSD.InetPcb) (rest : List FreeBSD.InetPcb) :
    FreeBSD.psutil_gather_inet stride xfiles (e :: rest) =
      (if e.xt_len ≠ stride then
        .error (.runtimeError "struct xtcpcb size mismatch")
      else
        let pid := FreeBSD.psutil_get_pid_from_sock xfiles
            (e.so_ptr % FreeBSD.HASHSIZE)
        if pid < 0 then FreeBSD.psutil_gather_inet stride xfiles rest
        else (FreeBSD.psutil_gather_inet stride xfiles rest).map
            (fun l => (pid, e) :: l)) := rfl

/-- When every walked element carries the expected self-declared size,
    `psutil_gather_inet` succeeds and emits exactly the entries whose
    hash lookup resolves, paired with the resolved pid. -/
theorem gather_inet_eq_filterMap (stride : Nat) (xfiles : List FreeBSD.XFile)
    (table : List FreeBSD.InetPcb) (hlen : ∀ e ∈ table, e.xt_len = stride) :
    FreeBSD.psutil_gather_inet stride xfiles table =
      .ok (table.filterMap (fun e =>
        let pid := FreeBSD.psutil_get_pid_from_sock xfiles (e.so_ptr % FreeBSD.HASHSIZE)
        if pid < 0 then none else some (pid, e))) := by
  induction table with
  | nil => rfl
  | cons e rest ih =>
      have he : e.xt_len = stride := hlen e (List.mem_cons_self _ _)
      have hrest := ih (fun x hx => hlen x (List.mem_cons_of_mem _ hx))
      unfold FreeBSD.psutil_gather_inet
      rw [if_neg (by simp [he]), hrest]
      by_cases hp :
          FreeBSD.psutil_get_pid_from_sock xfiles (e.so_ptr % FreeBSD.HASHSIZE) < 0
      · simp [List.filterMap_cons, hp]
      · simp [List.filterMap_cons, hp, Except.map]

/-- C1: the claim fails on the FreeBSD correlator.  With the owner-table
    fetch failing (errno 13), `psutil_net_connections` aborts the whole
    listing with that error instead of degrading to `owner_pid = -1`;
    and with an empty owner table together with one fetched TCP socket,
    the whole listing succeeds but is empty — the unmatched socket is
    dropped rather than returned with the unknown sentinel. -/
theorem freebsd_correlator_aborts_and_drops :
    FreeBSD.psutil_net_connections 1 1 1 (.fail (.osError 13)) [] [] [] [] =
      .error (.osError 13) ∧
    FreeBSD.psutil_net_connections 1 1 1 (.ok 0 1 []) [⟨1, 42⟩] [] [] [] =
      .ok ⟨[], []⟩ := ⟨rfl, rfl⟩

/-- C1 (amended): on FreeBSD, a failing owner-table fetch makes the whole
    connection listing fail with that same error, and the gather loop
    drops every socket whose hash lookup yields a negative pid,
    returning only the sockets whose owner was resolved (with the
    resolved pid attached, never the `-1` sentinel). -/
theorem freebsd_correlator_failure_semantics :
    (∀ (xfStride inetStride unixStride : Nat) (exc : PyExc)
        (tcp udp : List FreeBSD.InetPcb) (st dg : List FreeBSD.UnixPcb),
       FreeBSD.psutil_net_connections xfStride inetStride unixStride
           (.fail exc) tcp udp st dg = .error exc) ∧
    (∀ (stride : Nat) (xfiles : List FreeBSD.XFile)
        (table : List FreeBSD.InetPcb), (∀ e ∈ table, e.xt_len = stride) →
       FreeBSD.psutil_gather_inet stride xfiles table =
         .ok (table.filterMap (fun e =>
           let pid := FreeBSD.psutil_get_pid_from_sock xfiles
               (e.so_ptr % FreeBSD.HASHSIZE)
           if pid < 0 then none else some (pid, e)))) := by
  constructor
  · intro xfStride inetStride unixStride exc tcp udp st dg
    rfl
  · exact gather_inet_eq_filterMap

/-- C1 witness: the amended gather characterization at a concrete table
    containing one resolvable and one unresolvable socket. -/
theorem freebsd_correlator_failure_semantics_witness :
    FreeBSD.psutil_gather_inet 24 [⟨some 42, 9, 0⟩] [⟨24, 42⟩, ⟨24, 43⟩] =
      .ok [(9, ⟨24, 42⟩)] :=
  Trans.trans
    (freebsd_correlator_failure_semantics.2 24 [⟨some 42, 9, 0⟩]
      [⟨24, 42⟩, ⟨24, 43⟩] (by decide))
    rfl

/-- C3: the claim's hash-join description is false for the NetBSD
    correlator it covers.  A file entry with pointer 1014 and a socket
    with pointer 5 collide in the 1009-bucket hash (1014 mod 1009 = 5),
    so the claimed rule attaches pid 7 to the socket (as the FreeBSD
    lookup indeed would); but the NetBSD join compares the raw pointers
    for exact equality and emits nothing. -/
theorem netbsd_join_is_not_hash_join :
    NetBSD.psutil_net_connections (-1) [⟨7, 3, 1014⟩] [⟨5, 2, 1, 0⟩] = [] ∧
    (1014 : Nat) % FreeBSD.HASHSIZE = 5 % FreeBSD.HASHSIZE ∧
    FreeBSD.psutil_get_pid_from_sock [⟨some 1014, 7, 0⟩]
      (5 % FreeBSD.HASHSIZE) = 7 := ⟨rfl, by decide, rfl⟩

/-- C3 (amended): the FreeBSD correlator is the spec's hash join — the
    lookup equals the first-match-by-hash function, two pointers in the
    same bucket resolve identically, and a resolved pid always belongs
    to some entry of the bucket; the NetBSD correlator instead joins by
    exact kernel-pointer equality, every emitted record pairing a file
    entry with a pcb entry whose pointers are equal. -/
theorem socket_owner_join_characterization :
    (∀ (xfiles : List FreeBSD.XFile) (h : Nat),
       FreeBSD.psutil_get_pid_from_sock xfiles h =
         FreeBSD.specFirstHashMatch xfiles h) ∧
    (∀ (xfiles : List FreeBSD.XFile) (p1 p2 : Nat),
       p1 % FreeBSD.HASHSIZE = p2 % FreeBSD.HASHSIZE →
       FreeBSD.psutil_get_pid_from_sock xfiles (p1 % FreeBSD.HASHSIZE) =
         FreeBSD.psutil_get_pid_from_sock xfiles (p2 % FreeBSD.HASHSIZE)) ∧
    (∀ (xfiles : List FreeBSD.XFile) (h : Nat),
       FreeBSD.psutil_get_pid_from_sock xfiles h ≠ -1 →
       ∃ xf ∈ xfiles, ∃ d, xf.xf_data = some d ∧ d % FreeBSD.HASHSIZE = h ∧
         FreeBSD.psutil_get_pid_from_sock xfiles h = xf.xf_pid) ∧
    (∀ (pid : Int) (files : List NetBSD.Kif) (socks : List NetBSD.Kpcb)
        (r : NetBSD.ConnRec), r ∈ NetBSD.psutil_net_connections pid files socks →
       ∃ k ∈ files, ∃ kp ∈ socks, k.ki_fdata = kp.ki_sockaddr ∧
         r = ⟨k.ki_fd, kp, k.ki_pid⟩ ∧ (pid = -1 ∨ k.ki_pid = pid)) :=
  ⟨get_pid_from_sock_eq_spec,
   fun xfiles p1 p2 hp => by rw [hp],
   get_pid_from_sock_mem,
   netbsd_conn_mem⟩

/-- C3 witness: the bucket-membership part of the amended claim applied
    to a one-entry table, and the NetBSD part applied to an exactly
    matching file/socket pair. -/
theorem socket_owner_join_characterization_witness :
    (∃ xf ∈ ([⟨some 5, 9, 0⟩] : List FreeBSD.XFile), ∃ d,
        xf.xf_data = some d ∧ d % FreeBSD.HASHSIZE = 5 ∧
        FreeBSD.psutil_get_pid_from_sock [⟨some 5, 9, 0⟩] 5 = xf.xf_pid) ∧
    (∃ k ∈ ([⟨7, 3, 5⟩] : List NetBSD.Kif), ∃ kp ∈ ([⟨5, 2, 1, 0⟩] : List NetBSD.Kpcb),
        k.ki_fdata = kp.ki_sockaddr ∧
        (⟨3, ⟨5, 2, 1, 0⟩, 7⟩ : NetBSD.ConnRec) = ⟨k.ki_fd, kp, k.ki_pid⟩ ∧
        ((-1 : Int) = -1 ∨ k.ki_pid = -1)) :=
  ⟨socket_owner_join_characterization.2.2.1 [⟨some 5, 9, 0⟩] 5 (by decide),
   socket_owner_join_characterization.2.2.2 (-1) [⟨7, 3, 5⟩] [⟨5, 2, 1, 0⟩]
     ⟨3, ⟨5, 2, 1, 0⟩, 7⟩ (by decide)⟩

/-- C8: a table whose returned size is not an exact multiple of the
    element stride is NOT rejected.  With stride 4, a 9-byte `kern.file`
    result whose first entry declares the expected size passes the check
    and is silently truncated to `9 / 4 = 2` entries, even though 4 does
    not divide 9. -/
theorem populate_xfiles_truncates_nonmultiple :
    FreeBSD.psutil_populate_xfiles 4
        (.ok 9 4 [⟨none, 1, 4⟩, ⟨none, 2, 4⟩, ⟨none, 3, 4⟩]) =
      .ok [⟨none, 1, 4⟩, ⟨none, 2, 4⟩] ∧ ¬ (4 ∣ 9) := ⟨rfl, by decide⟩

/-- C8 (amended): the mismatch detection is on self-declared element
    sizes, not on divisibility of the total size.  A nonempty
    `kern.file` table whose first entry declares a size different from
    the expected stride fails with the RuntimeError "struct xfile size
    mismatch"; a walked pcb element whose self-declared length differs
    from the expected struct size fails the gather with "struct xtcpcb
    size mismatch"; and a table passing those checks is decoded to
    `len / stride` entries, truncating any byte remainder. -/
theorem stride_check_is_self_declared_size :
    (∀ (stride len firstSize : Nat) (files : List FreeBSD.XFile),
       0 < len → firstSize ≠ stride →
       FreeBSD.psutil_populate_xfiles stride (.ok len firstSize files) =
         .error (.runtimeError "struct xfile size mismatch")) ∧
    (∀ (stride : Nat) (xfiles : List FreeBSD.XFile)
        (good : List FreeBSD.InetPcb) (e : FreeBSD.InetPcb)
        (rest : List FreeBSD.InetPcb),
       (∀ x ∈ good, x.xt_len = stride) → e.xt_len ≠ stride →
       FreeBSD.psutil_gather_inet stride xfiles (good ++ e :: rest) =
         .error (.runtimeError "struct xtcpcb size mismatch")) ∧
    (∀ (stride len firstSize : Nat) (files : List FreeBSD.XFile)
        (l : List FreeBSD.XFile),
       FreeBSD.psutil_populate_xfiles stride (.ok len firstSize files) = .ok l →
       l.length = min (len / stride) files.length) := by
  refine ⟨?_, ?_, ?_⟩
  · intro stride len firstSize files hlen hne
    rw [populate_xfiles_ok_eq, if_pos ⟨hlen, hne⟩]
  · intro stride xfiles good e rest hgood he
    induction good with
    | nil =>
        rw [List.nil_append, gather_inet_cons_eq, if_pos he]
    | cons x good' ih =>
        have hx : x.xt_len = stride := hgood x (List.mem_cons_self _ _)
        have hrec := ih (fun y hy => hgood y (List.mem_cons_of_mem _ hy))
        rw [List.cons_append, gather_inet_cons_eq, if_neg (by simp [hx])]
        by_cases hp :
            FreeBSD.psutil_get_pid_from_sock xfiles (x.so_ptr % FreeBSD.HASHSIZE) < 0
        · simpa [hp] using hrec
        · simp only [hp, if_false]
          rw [hrec]
          rfl
  · intro stride len firstSize files l hok
    rw [populate_xfiles_ok_eq] at hok
    by_cases hc : 0 < len ∧ firstSize ≠ stride
    · rw [if_pos hc] at hok
      exact absurd hok (by simp)
    · rw [if_neg hc] at hok
      have : files.take (len / stride) = l := by
        simpa using hok
      rw [← this, List.length_take]

/-- C8 witness: the amended checks applied at concrete inputs — a first
    entry declaring size 3 against stride 4 is rejected, a gather over a
    good element followed by a bad one is rejected, and a 9-byte table of
    stride 4 decodes to 2 entries. -/
theorem stride_check_is_self_declared_size_witness :
    FreeBSD.psutil_populate_xfiles 4 (.ok 8 3 []) =
      .error (.runtimeError "struct xfile size mismatch") ∧
    FreeBSD.psutil_gather_inet 4 [] [⟨4, 0⟩, ⟨5, 0⟩] =
      .error (.runtimeError "struct xtcpcb size mismatch") ∧
    ([⟨none, 1, 4⟩, ⟨none, 2, 4⟩] : List FreeBSD.XFile).length =
      min (9 / 4) ([⟨none, 1, 4⟩, ⟨none, 2, 4⟩, ⟨none, 3, 4⟩] :
        List FreeBSD.XFile).length :=
  ⟨stride_check_is_self_declared_size.1 4 8 3 [] (by decide) (by decide),
   stride_check_is_self_declared_size.2.1 4 [] [⟨4, 0⟩] ⟨5, 0⟩ []
     (by decide) (by decide),
   stride_check_is_self_declared_size.2.2 4 9 4
     [⟨none, 1, 4⟩, ⟨none, 2, 4⟩, ⟨none, 3, 4⟩]
     [⟨none, 1, 4⟩, ⟨none, 2, 4⟩] rfl⟩

/-- Under a selector that always reports buffer-too-small (with
    allocation succeeding), the Windows TCP-table retry loop never
    produces a result, whatever the iteration budget. -/
theorem extTcpLoop_alwaysTooSmall (fuel : Nat) : ∀ i : Nat,
    WinTables.extTcpLoop alwaysTooSmallEnv i fuel = none := by
  induction fuel with
  | zero => intro i; rfl
  | succ fuel ih =>
      intro i
      show WinTables.extTcpLoop alwaysTooSmallEnv i (fuel + 1) = none
      unfold WinTables.extTcpLoop
      simpa [alwaysTooSmallEnv] using ih (i + 1)

/-- The same for the UDP-table retry loop. -/
theorem extUdpLoop_alwaysTooSmall (fuel : Nat) : ∀ i : Nat,
    WinTables.extUdpLoop alwaysTooSmallEnv i fuel = none := by
  induction fuel with
  | zero => intro i; rfl
  | succ fuel ih =>
      intro i
      show WinTables.extUdpLoop alwaysTooSmallEnv i (fuel + 1) = none
      unfold WinTables.extUdpLoop
      simpa [alwaysTooSmallEnv] using ih (i + 1)

/-- The `NtQuerySystemInformation` doubling loop never produces a result
    when the call always reports `STATUS_INFO_LENGTH_MISMATCH`. -/
theorem handleInfoLoop_alwaysMismatch (fuel : Nat) : ∀ i : Nat,
    WinHandles.handleInfoLoop (fun _ => WinHandles.STATUS_INFO_LENGTH_MISMATCH)
      (fun _ => true) i fuel = none := by
  induction fuel with
  | zero => intro i; rfl
  | succ fuel ih =>
      intro i
      show WinHandles.handleInfoLoop _ _ i (fuel + 1) = none
      unfold WinHandles.handleInfoLoop
      simpa using ih (i + 1)

/-- Unfolding equation for one iteration of the macOS retry loop. -/
theorem procListLoop_succ_eq (env : OSX.ProcListEnv) (attempt lim : Nat) :
    OSX.procListLoop env attempt (lim + 1) =
      (match env.sizeQuery attempt with
       | .err e => (e, 0, attempt + 1)
       | .ok _ =>
           if env.mallocOk attempt then
             match env.fetch attempt with
             | .ok rsize => (0, rsize / OSX.kinfoProcStride, attempt + 1)
             | .err e =>
                 if e ≠ ENOMEM then (e, 0, attempt + 1)
                 else OSX.procListLoop env (attempt + 1) lim
           else (ENOMEM, 0, attempt + 1)) := rfl

/-- The macOS retry loop performs at most `lim` further attempts. -/
theorem procListLoop_attempts (env : OSX.ProcListEnv) : ∀ (lim attempt : Nat),
    (OSX.procListLoop env attempt lim).2.2 ≤ attempt + lim := by
  intro lim
  induction lim with
  | zero => intro attempt; exact Nat.le_refl _
  | succ lim ih =>
      intro attempt
      rw [procListLoop_succ_eq]
      split
      · show attempt + 1 ≤ attempt + (lim + 1)
        omega
      · split
        · split
          · show attempt + 1 ≤ attempt + (lim + 1)
            omega
          · split
            · show attempt + 1 ≤ attempt + (lim + 1)
              omega
            · exact le_trans (ih (attempt + 1)) (by omega)
        · show attempt + 1 ≤ attempt + (lim + 1)
          omega

/-- Under the always-ENOMEM environment, every attempt of the macOS
    retry loop fails and retries, so a remaining limit of `lim` is used
    up entirely and the loop returns `ENOMEM`. -/
theorem procListLoop_alwaysENOMEM : ∀ lim attempt : Nat,
    OSX.procListLoop alwaysENOMEMEnv attempt lim = (ENOMEM, 0, attempt + lim) := by
  intro lim
  induction lim with
  | zero => intro attempt; rfl
  | succ lim ih =>
      intro attempt
      have hstep : OSX.procListLoop alwaysENOMEMEnv attempt (lim + 1) =
          OSX.procListLoop alwaysENOMEMEnv (attempt + 1) lim := rfl
      rw [hstep, ih (attempt + 1)]
      have harith : attempt + 1 + lim = attempt + (lim + 1) := by omega
      rw [harith]

set_option maxRecDepth 4000 in
/-- C2: the claim fails on the Windows extended-table helper it covers.
    Under a selector that reports buffer-too-small on every attempt (with
    allocation succeeding), `__GetExtendedTcpTable` has not terminated
    after the claimed retry bound of 8 attempts, nor after 100: there is
    no configured bound. -/
theorem tcp_table_retry_unbounded :
    WinTables.GetExtendedTcpTable alwaysTooSmallEnv 8 = none ∧
    WinTables.GetExtendedTcpTable alwaysTooSmallEnv 100 = none :=
  ⟨extTcpLoop_alwaysTooSmall 8 1, extTcpLoop_alwaysTooSmall 100 1⟩

/-- C2 (amended): only the macOS process-list fetch bounds its retries —
    it makes at most 8 attempts, and under an always-ENOMEM fetch it
    stops after exactly 8 attempts returning ENOMEM; the Windows
    extended-TCP/UDP-table helpers and the NtQuerySystemInformation
    handle-table loop have no retry bound and, under an
    always-buffer-too-small selector, never terminate within any finite
    iteration budget. -/
theorem kernel_table_retry_bounds :
    (∀ fuel : Nat, WinTables.GetExtendedTcpTable alwaysTooSmallEnv fuel = none) ∧
    (∀ fuel : Nat, WinTables.GetExtendedUdpTable alwaysTooSmallEnv fuel = none) ∧
    (∀ fuel i : Nat,
       WinHandles.handleInfoLoop
         (fun _ => WinHandles.STATUS_INFO_LENGTH_MISMATCH)
         (fun _ => true) i fuel = none) ∧
    OSX.psutil_get_proc_list alwaysENOMEMEnv = (ENOMEM, 0, 8) ∧
    (∀ env : OSX.ProcListEnv, (OSX.psutil_get_proc_list env).2.2 ≤ 8) :=
  ⟨fun fuel => extTcpLoop_alwaysTooSmall fuel 1,
   fun fuel => extUdpLoop_alwaysTooSmall fuel 1,
   fun fuel i => handleInfoLoop_alwaysMismatch fuel i,
   procListLoop_alwaysENOMEM 8 0,
   fun env => procListLoop_attempts env 8 0⟩

/-- A result produced by the TCP-table retry loop never carries
    `ERROR_INSUFFICIENT_BUFFER`, and carries no buffer unless it is
    `NO_ERROR`. -/
theorem extTcpLoop_result (env : WinTables.ExtTableEnv) : ∀ (fuel i : Nat)
    (res : Nat × Bool), WinTables.extTcpLoop env i fuel = some res →
    res.1 ≠ Windows.ERROR_INSUFFICIENT_BUFFER ∧
      (res.1 ≠ Windows.NO_ERROR → res.2 = false) := by
  intro fuel
  induction fuel with
  | zero => intro i res h; exact absurd h (by simp [WinTables.extTcpLoop])
  | succ fuel ih =>
      intro i res h
      unfold WinTables.extTcpLoop at h
      by_cases hm : env.mallocOk i
      · rw [if_pos hm] at h
        by_cases he : env.call i = Windows.ERROR_INSUFFICIENT_BUFFER
        · rw [if_pos he] at h
          exact ih (i + 1) res h
        · rw [if_neg he] at h
          obtain rfl : (env.call i, decide (env.call i = Windows.NO_ERROR)) = res :=
            Option.some.inj h
          refine ⟨he, fun hno => ?_⟩
          simp [hno]
      · rw [if_neg hm] at h
        obtain rfl : (Windows.ERROR_NOT_ENOUGH_MEMORY, false) = res :=
          Option.some.inj h
        exact ⟨by decide, fun _ => rfl⟩

/-- The same for the UDP-table retry loop. -/
theorem extUdpLoop_result (env : WinTables.ExtTableEnv) : ∀ (fuel i : Nat)
    (res : Nat × Bool), WinTables.extUdpLoop env i fuel = some res →
    res.1 ≠ Windows.ERROR_INSUFFICIENT_BUFFER ∧
      (res.1 ≠ Windows.NO_ERROR → res.2 = false) := by
  intro fuel
  induction fuel with
  | zero => intro i res h; exact absurd h (by simp [WinTables.extUdpLoop])
  | succ fuel ih =>
      intro i res h
      unfold WinTables.extUdpLoop at h
      by_cases hm : env.mallocOk i
      · rw [if_pos hm] at h
        by_cases he : env.call i = Windows.ERROR_INSUFFICIENT_BUFFER
        · rw [if_pos he] at h
          exact ih (i + 1) res h
        · rw [if_neg he] at h
          obtain rfl : (env.call i, decide (env.call i = Windows.NO_ERROR)) = res :=
            Option.some.inj h
          refine ⟨he, fun hno => ?_⟩
          simp [hno]
      · rw [if_neg hm] at h
        obtain rfl : (Windows.ERROR_NOT_ENOUGH_MEMORY, false) = res :=
          Option.some.inj h
        exact ⟨by decide, fun _ => rfl⟩

/-- C6: whenever `__GetExtendedTcpTable` or `__GetExtendedUdpTable`
    returns, the error code handed to the caller is never
    `ERROR_INSUFFICIENT_BUFFER` — buffer-too-small is absorbed by the
    retry loop — and a non-success exit never holds a data buffer. -/
theorem transient_never_escapes (env : WinTables.ExtTableEnv) (fuel : Nat)
    (res : Nat × Bool) :
    (WinTables.GetExtendedTcpTable env fuel = some res →
       res.1 ≠ Windows.ERROR_INSUFFICIENT_BUFFER ∧
         (res.1 ≠ Windows.NO_ERROR → res.2 = false)) ∧
    (WinTables.GetExtendedUdpTable env fuel = some res →
       res.1 ≠ Windows.ERROR_INSUFFICIENT_BUFFER ∧
         (res.1 ≠ Windows.NO_ERROR → res.2 = false)) := by
  constructor
  · intro h
    unfold WinTables.GetExtendedTcpTable at h
    by_cases he : env.call 0 = Windows.ERROR_INSUFFICIENT_BUFFER
    · rw [if_pos he] at h
      exact extTcpLoop_result env fuel 1 res h
    · rw [if_neg he] at h
      obtain rfl : (env.call 0, false) = res := Option.some.inj h
      exact ⟨he, fun _ => rfl⟩
  · intro h
    unfold WinTables.GetExtendedUdpTable at h
    by_cases he : env.call 0 = Windows.ERROR_INSUFFICIENT_BUFFER
    · rw [if_pos he] at h
      exact extUdpLoop_result env fuel 1 res h
    · rw [if_neg he] at h
      obtain rfl : (env.call 0, false) = res := Option.some.inj h
      exact ⟨he, fun _ => rfl⟩

/-- C6 witness: the absorption property at the selector whose probe
    reports buffer-too-small once and then succeeds. -/
theorem transient_never_escapes_witness :
    (Windows.NO_ERROR, true).1 ≠ Windows.ERROR_INSUFFICIENT_BUFFER ∧
      ((Windows.NO_ERROR, true).1 ≠ Windows.NO_ERROR →
        (Windows.NO_ERROR, true).2 = false) :=
  (transient_never_escapes probeThenOkEnv 3 (Windows.NO_ERROR, true)).1 rfl

/-- C4: `psutil_raise_for_pid` with a clear errno surfaces it as a raw
    OSError without consulting the liveness probe (the result is
    independent of the kill oracle); with errno unset it probes — a dead
    process yields `NoSuchProcess()` (outcome NotFound) and a live (or
    unprobeable) one yields `RuntimeError(msg)` (outcome Fatal, carrying
    the caller's message). -/
theorem raise_for_pid_probe_disambiguation
    (platform : Posix.Platform) (kill kill2 : Int → Posix.KillResult)
    (pid : Int) (msg : String) (errno : Int) :
    (Posix.psutil_pid_exists platform kill pid = 0 →
       Posix.psutil_raise_for_pid platform kill 0 pid msg = .noSuchProcess ∧
       excOutcome (Posix.psutil_raise_for_pid platform kill 0 pid msg) =
         .notFound) ∧
    (Posix.psutil_pid_exists platform kill pid ≠ 0 →
       Posix.psutil_raise_for_pid platform kill 0 pid msg = .runtimeError msg ∧
       excOutcome (Posix.psutil_raise_for_pid platform kill 0 pid msg) =
         .fatal) ∧
    (errno ≠ 0 →
       Posix.psutil_raise_for_pid platform kill errno pid msg = .osError errno ∧
       Posix.psutil_raise_for_pid platform kill2 errno pid msg =
         Posix.psutil_raise_for_pid platform kill errno pid msg) := by
  refine ⟨fun h0 => ?_, fun hne => ?_, fun he => ?_⟩
  · unfold Posix.psutil_raise_for_pid
    rw [if_neg (by simp), if_pos h0]
    exact ⟨rfl, rfl⟩
  · unfold Posix.psutil_raise_for_pid
    rw [if_neg (by simp), if_neg hne]
    exact ⟨rfl, rfl⟩
  · unfold Posix.psutil_raise_for_pid
    rw [if_pos he, if_pos he]
    exact ⟨rfl, rfl⟩

/-- C4 witness: the probe disambiguation applied with a kill oracle
    reporting ESRCH for pid 5 (dead process, errno unset). -/
theorem raise_for_pid_probe_disambiguation_witness :
    Posix.psutil_raise_for_pid .linux (fun _ => .err ESRCH) 0 5 "oops" =
      .noSuchProcess ∧
    excOutcome (Posix.psutil_raise_for_pid .linux (fun _ => .err ESRCH)
      0 5 "oops") = .notFound :=
  (raise_for_pid_probe_disambiguation .linux (fun _ => .err ESRCH)
    (fun _ => .ok) 5 "oops" 0).1 rfl

/-- C5: every raw failure meaning "no such process" classifies as
    NotFound — a PID-directed sysctl succeeding with returned length 0
    becomes `NoSuchProcess()`, `OpenProcess` failing with
    `ERROR_INVALID_PARAMETER` becomes `NoSuchProcess()`, a raw `ESRCH`
    OSError classifies as NotFound, and the `task_for_pid` error branch
    on a dead process becomes `NoSuchProcess()`; NotFound is distinct
    from PermissionDenied and Fatal. -/
theorem no_such_process_classification
    (openProcess : Nat → Windows.OpenResult) (exitVar : Nat → Nat) (pid : Nat)
    (platform : Posix.Platform) (kill : Int → Posix.KillResult) (ppid : Int) :
    (OSX.psutil_get_kinfo_proc (.ok 0) = .error .noSuchProcess ∧
       excOutcome PyExc.noSuchProcess = .notFound) ∧
    (pid ≠ 0 → openProcess pid = .fail Windows.ERROR_INVALID_PARAMETER →
       Windows.psutil_handle_from_pid_waccess openProcess exitVar pid =
         .error .noSuchProcess) ∧
    excOutcome (.osError ESRCH) = .notFound ∧
    (Posix.psutil_pid_exists platform kill ppid = 0 →
       OSX.task_for_pid_error_branch platform kill ppid = .noSuchProcess) ∧
    Outcome.notFound ≠ .permissionDenied ∧ Outcome.notFound ≠ .fatal := by
  refine ⟨⟨rfl, rfl⟩, fun hp ho => ?_, rfl, fun h => ?_, by decide, by decide⟩
  · unfold Windows.psutil_handle_from_pid_waccess
    rw [if_neg hp]
    simp [ho, Windows.ERROR_INVALID_PARAMETER]
  · unfold OSX.task_for_pid_error_branch
    rw [if_pos h]

/-- C5 witness: the Windows and macOS branches applied at pid 5 with an
    `ERROR_INVALID_PARAMETER` OpenProcess failure, and at pid 7 with an
    ESRCH kill probe. -/
theorem no_such_process_classification_witness :
    Windows.psutil_handle_from_pid_waccess
        (fun _ => .fail Windows.ERROR_INVALID_PARAMETER) (fun _ => 1) 5 =
      .error .noSuchProcess ∧
    OSX.task_for_pid_error_branch .linux (fun _ => .err ESRCH) 7 =
      .noSuchProcess :=
  ⟨(no_such_process_classification
      (fun _ => .fail Windows.ERROR_INVALID_PARAMETER) (fun _ => 1) 5
      .linux (fun _ => .err ESRCH) 7).2.1 (by decide) rfl,
   (no_such_process_classification
      (fun _ => .fail Windows.ERROR_INVALID_PARAMETER) (fun _ => 1) 5
      .linux (fun _ => .err ESRCH) 7).2.2.2.1 rfl⟩

/-- C7: with zero swap devices (`swapctl(SWAP_NSWAP, 0, 0)` returning 0)
    the NetBSD swap_mem returns the zeroed five-tuple without looking at
    any further syscall, as the claim states; but the OpenBSD swap_mem
    treats the same answer as an error, raising an OSError from whatever
    stale value errno happens to hold — the code slip the claim exposes. -/
theorem swap_mem_zero_devices_divergence :
    BsdSwap.netbsd_swap_mem 0 (.error 99) (.error 99) 4096 =
      .ok (0, 0, 0, 0, 0) ∧
    BsdSwap.openbsd_swap_mem 0 0 (.ok []) = .error (.osError 0) ∧
    BsdSwap.openbsd_swap_mem 7 0 (.ok []) = .error (.osError 7) :=
  ⟨rfl, rfl, rfl⟩

/-- Unfolding equation for one iteration of the per-handle name-query
    loop. -/
theorem queryNameLoop_succ_eq (h : WinHandles.HandleEntry)
    (dwLength k fuel : Nat) :
    WinHandles.queryNameLoop h dwLength k (fuel + 1) =
      (if dwLength = 0 then some none
       else if ¬ h.allocOk k then some none
       else
         match h.ntqo k with
         | .hang => some none
         | .done status newLength name =>
             if status = WinHandles.STATUS_INFO_LENGTH_MISMATCH then
               WinHandles.queryNameLoop h newLength (k + 1) fuel
             else if WinHandles.NT_SUCCESS status then
               if name.length > 0 then some (some name) else some none
             else some none) := rfl

/-- Unfolding equation for the per-handle enumeration loop. -/
theorem enumHandles_cons_eq (dwPid : Int) (fuel : Nat)
    (h : WinHandles.HandleEntry) (rest : List WinHandles.HandleEntry) :
    WinHandles.enumHandles dwPid fuel (h :: rest) =
      (if h.uniqueProcessId ≠ dwPid then WinHandles.enumHandles dwPid fuel rest
       else if ¬ h.dupOk then WinHandles.enumHandles dwPid fuel rest
       else
         match WinHandles.queryNameLoop h WinHandles.initialNameLength 0 fuel with
         | none => none
         | some none => WinHandles.enumHandles dwPid fuel rest
         | some (some name) =>
             (WinHandles.enumHandles dwPid fuel rest).map (name :: ·)) := rfl

/-- A handle whose first name-query attempt hangs is skipped by the
    name-query loop (the watchdog wait elapses before any status is
    observed). -/
theorem queryNameLoop_hang (h : WinHandles.HandleEntry) (fuel : Nat)
    (hh : h.ntqo 0 = .hang) :
    WinHandles.queryNameLoop h WinHandles.initialNameLength 0 (fuel + 1) =
      some none := by
  rw [queryNameLoop_succ_eq]
  rw [if_neg (by decide : ¬ WinHandles.initialNameLength = 0)]
  by_cases ha : h.allocOk 0
  · rw [if_neg (by simp [ha])]
    rw [hh]
  · rw [if_pos (by simp [ha])]

/-- C9: the watchdog dispatcher answers a hanging `NtQueryObject` with
    `WAIT_TIMEOUT` after forcibly terminating the worker thread (the
    returned thread state is dead), a handle whose query hangs is
    skipped, and the enumeration of the remaining handles continues
    unchanged. -/
theorem ntqueryobject_timeout_skips_handle
    (createOk : Bool) (lastErr : Nat) (h : WinHandles.HandleEntry)
    (dwPid : Int) (fuel : Nat) (rest : List WinHandles.HandleEntry) :
    WinHandles.psutil_NtQueryObject true createOk lastErr .hang =
      (WinHandles.WAIT_TIMEOUT, false) ∧
    (h.ntqo 0 = .hang →
       WinHandles.queryNameLoop h WinHandles.initialNameLength 0 (fuel + 1) =
         some none) ∧
    (h.ntqo 0 = .hang →
       WinHandles.enumHandles dwPid (fuel + 1) (h :: rest) =
         WinHandles.enumHandles dwPid (fuel + 1) rest) := by
  refine ⟨?_, queryNameLoop_hang h fuel, fun hh => ?_⟩
  · unfold WinHandles.psutil_NtQueryObject
    rw [if_neg (by simp)]
  · rw [enumHandles_cons_eq]
    by_cases hp : h.uniqueProcessId ≠ dwPid
    · rw [if_pos hp]
    · rw [if_neg hp]
      by_cases hd : h.dupOk
      · rw [if_neg (by simp [hd])]
        rw [queryNameLoop_hang h fuel hh]
      · rw [if_pos (by simp [hd])]

/-- C9 witness: the dispatcher and skip behaviour at a concrete hanging
    handle followed by a promptly answering one. -/
theorem ntqueryobject_timeout_skips_handle_witness :
    WinHandles.psutil_NtQueryObject true true 0 .hang =
      (WinHandles.WAIT_TIMEOUT, false) ∧
    WinHandles.enumHandles 1 4 [hangingHandle, promptHandle] =
      WinHandles.enumHandles 1 4 [promptHandle] :=
  ⟨(ntqueryobject_timeout_skips_handle true 0 hangingHandle 1 3
      [promptHandle]).1,
   (ntqueryobject_timeout_skips_handle true 0 hangingHandle 1 3
      [promptHandle]).2.2 rfl⟩

/-- C10: the POSIX liveness probe answers negative pids "does not exist"
    independently of the kill oracle (no syscall); an `EPERM` kill
    failure means "exists"; an `ERROR_ACCESS_DENIED` OpenProcess failure
    means "running"; and pid 0 is answered by the platform constant —
    does not exist on Linux and FreeBSD, exists on macOS and the other
    POSIX platforms, always running on Windows. -/
theorem liveness_probe_boundary
    (platform : Posix.Platform) (kill kill2 : Int → Posix.KillResult)
    (pid : Int) (openProcess : Nat → Windows.OpenResult)
    (getExitCode : Nat → Windows.ExitCodeResult) (wpid : Nat) :
    (pid < 0 → Posix.psutil_pid_exists platform kill pid = 0 ∧
       Posix.psutil_pid_exists platform kill pid =
         Posix.psutil_pid_exists platform kill2 pid) ∧
    (0 < pid → kill pid = .err EPERM →
       Posix.psutil_pid_exists platform kill pid = 1) ∧
    (wpid ≠ 0 → openProcess wpid = .fail Windows.ERROR_ACCESS_DENIED →
       Windows.psutil_pid_is_running openProcess getExitCode wpid = 1) ∧
    (Posix.psutil_pid_exists .linux kill 0 = 0 ∧
     Posix.psutil_pid_exists .freebsd kill 0 = 0 ∧
     Posix.psutil_pid_exists .osx kill 0 = 1 ∧
     Posix.psutil_pid_exists .other kill 0 = 1 ∧
     Windows.psutil_pid_is_running openProcess getExitCode 0 = 1) := by
  refine ⟨fun hneg => ?_, fun hpos hk => ?_, fun hw ho => ?_,
    rfl, rfl, rfl, rfl, rfl⟩
  · unfold Posix.psutil_pid_exists
    rw [if_pos hneg, if_pos hneg]
    exact ⟨rfl, rfl⟩
  · unfold Posix.psutil_pid_exists
    rw [if_neg (by omega), if_neg (by omega), hk]
    simp [EPERM, ESRCH]
  · unfold Windows.psutil_pid_is_running
    rw [if_neg hw]
    simp [ho, Windows.ERROR_ACCESS_DENIED, Windows.ERROR_INVALID_PARAMETER]

/-- C10 witness: the probe boundary at pid -3 (POSIX), a permission-denied
    kill at pid 4, and a permission-denied OpenProcess at pid 6. -/
theorem liveness_probe_boundary_witness :
    Posix.psutil_pid_exists .osx (fun _ => .ok) (-3) = 0 ∧
    Posix.psutil_pid_exists .osx (fun _ => .err EPERM) 4 = 1 ∧
    Windows.psutil_pid_is_running
      (fun _ => .fail Windows.ERROR_ACCESS_DENIED) (fun _ => .ok 259) 6 = 1 :=
  ⟨((liveness_probe_boundary .osx (fun _ => .ok) (fun _ => .ok) (-3)
      (fun _ => .fail Windows.ERROR_ACCESS_DENIED) (fun _ => .ok 259) 6).1
      (by decide)).1,
   (liveness_probe_boundary .osx (fun _ => .err EPERM) (fun _ => .ok) 4
      (fun _ => .fail Windows.ERROR_ACCESS_DENIED) (fun _ => .ok 259) 6).2.1
      (by decide) rfl,
   (liveness_probe_boundary .osx (fun _ => .ok) (fun _ => .ok) 4
      (fun _ => .fail Windows.ERROR_ACCESS_DENIED) (fun _ => .ok 259) 6).2.2.1
      (by decide) rfl⟩

end Psutil
